import Mathlib

/-!
Shallow embedding of two Django modules of the edx-platform fragment:

* `openedx/core/djangoapps/content_libraries/models.py` — the models
  `ContentLibrary`, `ContentLibraryPermission` (with its validating `save`),
  and `ContentLibraryBlockImportTask` (with the `execute` context manager and
  `save_progress`).
* `lms/djangoapps/course_goals/migrations/0007_set_unsubscribe_token_default.py`
  — the declared column options of `unsubscribe_token` on `CourseGoal` and
  `HistoricalCourseGoal`.

Conventions of the embedding:

* Database rows are Lean structures whose fields mirror the model columns;
  foreign keys and UUIDs are `Nat` identifiers, slugs and course ids are
  `String`, timestamps are `Nat` instants, and the Python `float` progress
  field is `ℚ` (the code only stores and compares it, never does float
  arithmetic, so rationals are a faithful carrier).
* Fallible Python code is `PyResult` (normal return or raised exception);
  the `execute` context manager is embedded as the ordered list of its
  observable events (ORM load, database writes, yielding control to the
  body, returning / re-raising).
* Declared database constraints (`unique`, `unique_together`) are embedded
  as admissibility predicates on lists of rows, with the standard SQL
  semantics that NULL values do not participate in uniqueness.
-/

namespace Edx

/-- The five task states declared in `ContentLibraryBlockImportTask.TASK_STATE_CHOICES`. -/
inductive TaskState where
  | created
  | pending
  | running
  | failed
  | successful
deriving DecidableEq, Repr

/-- One persisted row of `ContentLibraryBlockImportTask`: a library foreign key,
the task state, the progress float, the originating course id, and the two
timestamps (`created_at` is `auto_now_add`, `updated_at` is `auto_now`). -/
structure TaskRow where
  library : Nat
  state : TaskState
  progress : ℚ
  course_id : String
  created_at : Nat
  updated_at : Nat
deriving DecidableEq, Repr

/-- A freshly inserted task row, with the declared column defaults:
`state` defaults to `created` and `progress` defaults to `0.0`. -/
def newTask (library : Nat) (course_id : String) (now : Nat) : TaskRow :=
  { library := library
    state := TaskState.created
    progress := 0
    course_id := course_id
    created_at := now
    updated_at := now }

/-- `ContentLibraryBlockImportTask.save_progress`: sets `self.progress` and
saves with `update_fields=['progress', 'updated_at']`, so only those two
columns of the row change. -/
def save_progress (row : TaskRow) (progress : ℚ) (now : Nat) : TaskRow :=
  { row with progress := progress, updated_at := now }

/-- Result of running a block of Python code: normal completion with a value,
or a raised exception. -/
inductive PyResult (ε α : Type) where
  | ok (a : α)
  | exc (e : ε)
deriving DecidableEq, Repr

/-- Observable events of the `execute` context manager, in order: the ORM
load of the row, full-row database writes, the `yield` handing the loaded
row to the caller's work, and the return (re-raising the body's exception
unchanged, or completing normally). -/
inductive ExecEvent (ε α : Type) where
  | load (r : TaskRow)
  | dbWrite (r : TaskRow)
  | yieldControl (r : TaskRow)
  | finish (r : PyResult ε α)
deriving DecidableEq, Repr

/-- The row as `execute` persists it before yielding: the loaded row with
`state` set to `TASK_RUNNING` (the save also refreshes `updated_at`, which is
`auto_now`). -/
def runningRow (row : TaskRow) (now : Nat) : TaskRow :=
  { row with state := TaskState.running, updated_at := now }

/-- The row as `execute` persists it in its `finally` block: the body may have
mutated the yielded row (first component of the body's output), and `execute`
then sets `state` to `TASK_SUCCESSFUL` on normal completion of the body or to
`TASK_FAILED` when the body raised. -/
def executeResult {ε α : Type} (row : TaskRow) (body : TaskRow → TaskRow × PyResult ε α)
    (now1 now2 : Nat) : TaskRow :=
  { (body (runningRow row now1)).1 with
    state := match (body (runningRow row now1)).2 with
      | PyResult.ok _ => TaskState.successful
      | PyResult.exc _ => TaskState.failed
    updated_at := now2 }

/-- `ContentLibraryBlockImportTask.execute` as its ordered event trace: load
the row by id, set `state = TASK_RUNNING` and save, yield the row to the
caller's work, then (in `finally`) save the row with the terminal state, and
return — re-raising the body's exception unchanged if it raised. The body is
modelled as a function from the yielded row to the mutated row paired with
its outcome. -/
def execute {ε α : Type} (row : TaskRow) (body : TaskRow → TaskRow × PyResult ε α)
    (now1 now2 : Nat) : List (ExecEvent ε α) :=
  [ExecEvent.load row,
   ExecEvent.dbWrite (runningRow row now1),
   ExecEvent.yieldControl (runningRow row now1),
   ExecEvent.dbWrite (executeResult row body now1 now2),
   ExecEvent.finish (body (runningRow row now1)).2]

/-- The sequence of values written to the `state` column by a list of events.
Only full-row writes touch the `state` column. -/
def dbStates {ε α : Type} (evs : List (ExecEvent ε α)) : List TaskState :=
  evs.filterMap fun e => match e with
    | ExecEvent.dbWrite r => some r.state
    | _ => none

/-- The operations through which a `ContentLibraryBlockImportTask` row is
mutated: running the `execute` context manager around some body, or a
`save_progress` call. -/
inductive TaskOp (ε α : Type) where
  | runTask (body : TaskRow → TaskRow × PyResult ε α) (now1 now2 : Nat)
  | saveProgress (p : ℚ) (now : Nat)

/-- Apply one operation to the current row, returning the new row together
with the values successively written to the `state` column: `execute` writes
`running` then a terminal state; `save_progress` saves with
`update_fields=['progress', 'updated_at']` and therefore never writes the
`state` column. -/
def applyOp {ε α : Type} (row : TaskRow) : TaskOp ε α → TaskRow × List TaskState
  | TaskOp.runTask body now1 now2 =>
    (executeResult row body now1 now2, dbStates (execute row body now1 now2))
  | TaskOp.saveProgress p now => (save_progress row p now, [])

/-- Run a list of operations from a starting row, collecting the final row
and the concatenated sequence of `state`-column writes. -/
def runOps {ε α : Type} (row : TaskRow) : List (TaskOp ε α) → TaskRow × List TaskState
  | [] => (row, [])
  | op :: ops =>
    ((runOps (applyOp row op).1 ops).1, (applyOp row op).2 ++ (runOps (applyOp row op).1 ops).2)

/-- The persisted state history of a task mutated only through `execute` and
progress updates: the `created` default of the freshly inserted row, followed
by every value subsequently written to the `state` column. -/
def stateTrace {ε α : Type} (library : Nat) (course_id : String) (now : Nat)
    (ops : List (TaskOp ε α)) : List TaskState :=
  (newTask library course_id now).state :: (runOps (newTask library course_id now) ops).2

/-- A sequence of `state`-column writes whose first write (if any) is not a
terminal state. -/
def noLeadingTerminal (l : List TaskState) : Prop :=
  ∀ s, l[0]? = some s → s ≠ TaskState.successful ∧ s ≠ TaskState.failed

/-- A sequence of states in which every terminal state is immediately
preceded by `running`. -/
def runningBeforeTerminal (l : List TaskState) : Prop :=
  ∀ i s, l[i + 1]? = some s → (s = TaskState.successful ∨ s = TaskState.failed) →
    l[i]? = some TaskState.running

/-- One row of `ContentLibraryPermission`: a library foreign key, the two
nullable foreign keys `user` and `group`, and the access level. -/
structure ContentLibraryPermission where
  library : Nat
  user : Option Nat
  group : Option Nat
  access_level : String
deriving DecidableEq, Repr

/-- The `django.core.exceptions.ValidationError` raised by
`ContentLibraryPermission.save`. -/
structure ValidationError where
  message : String
deriving DecidableEq, Repr

/-- The error raised when the user/group exclusivity check fails. -/
def permissionValidationError : ValidationError :=
  { message := "One and only one of user and group must be set." }

/-- `ContentLibraryPermission.save`: raises `ValidationError` when
`(not self.user) == (not self.group)` — i.e. when the two nullable foreign
keys are both null or both non-null — and otherwise delegates to the
underlying model save (`super().save()`), abstracted here as `superSave`
acting on the stored table. The result is the table after the call together
with the Python outcome. -/
def ContentLibraryPermission.save
    (superSave : List ContentLibraryPermission → ContentLibraryPermission →
      List ContentLibraryPermission)
    (db : List ContentLibraryPermission) (p : ContentLibraryPermission) :
    List ContentLibraryPermission × Except ValidationError ContentLibraryPermission :=
  if p.user.isNone = p.group.isNone then
    (db, Except.error permissionValidationError)
  else
    (superSave db p, Except.ok p)

/-- The `unique_together` declaration of `ContentLibraryPermission.Meta`:
`('library', 'user')` and `('library', 'group')` are each unique, with the
SQL semantics that rows whose nullable member is NULL do not participate in
the constraint. -/
def permTableOK (rows : List ContentLibraryPermission) : Prop :=
  (rows.filterMap fun r => r.user.map fun u => (r.library, u)).Nodup ∧
  (rows.filterMap fun r => r.group.map fun g => (r.library, g)).Nodup

/-- One row of `ContentLibrary`: auto primary key, the organization foreign
key, the slug, the unique non-null `bundle_uuid`, the type and license
choices, and the two visibility flags. -/
structure ContentLibraryRow where
  id : Nat
  org : Nat
  slug : String
  bundle_uuid : Nat
  type : String
  license : String
  allow_public_learning : Bool
  allow_public_read : Bool
deriving DecidableEq, Repr

/-- The declared uniqueness constraints of `ContentLibrary`:
`unique_together = ("org", "slug")` and `bundle_uuid = UUIDField(unique=True,
null=False)`. Both columns of the pair and the UUID are non-nullable, so no
NULL carve-out applies. -/
def contentLibraryTableOK (rows : List ContentLibraryRow) : Prop :=
  (rows.map fun r => (r.org, r.slug)).Nodup ∧
  (rows.map fun r => r.bundle_uuid).Nodup

/-- The keyword options a Django `UUIDField` declaration carries in migration
`0007_set_unsubscribe_token_default`; `default_random_uuid` records whether
`default=uuid.uuid4` was declared. Omitted options keep their Django
defaults (`db_index=False`, `unique=False`, `editable=True`). -/
structure UUIDFieldOptions where
  blank : Bool
  db_index : Bool
  default_random_uuid : Bool
  editable : Bool
  null : Bool
  unique : Bool
deriving DecidableEq, Repr

/-- The options of `coursegoal.unsubscribe_token` after migration 0007:
`blank=True, default=uuid.uuid4, editable=False, null=True, unique=True`. -/
def courseGoalUnsubscribeToken : UUIDFieldOptions :=
  { blank := true
    db_index := false
    default_random_uuid := true
    editable := false
    null := true
    unique := true }

/-- The options of `historicalcoursegoal.unsubscribe_token` after migration
0007: `blank=True, db_index=True, default=uuid.uuid4, editable=False,
null=True` — and no `unique=True`. -/
def historicalCourseGoalUnsubscribeToken : UUIDFieldOptions :=
  { blank := true
    db_index := true
    default_random_uuid := true
    editable := false
    null := true
    unique := false }

/-- A list of stored token-column values (NULL or a UUID, as `Option Nat`) is
admissible for a field declaration: a `unique=True` column rejects two equal
non-null values, per SQL semantics; without `unique=True` the database
accepts anything. -/
def tokenColumnAdmissible (opts : UUIDFieldOptions) (rows : List (Option Nat)) : Prop :=
  opts.unique = true → (rows.filterMap id).Nodup

/-- Sample content library row used to instantiate the uniqueness theorem. -/
def sampleLibraryA : ContentLibraryRow :=
  { id := 1
    org := 10
    slug := "phys"
    bundle_uuid := 100
    type := "complex"
    license := "all-rights-reserved"
    allow_public_learning := false
    allow_public_read := false }

/-- A second sample content library row in the same organization, with a
different slug and a different bundle UUID. -/
def sampleLibraryB : ContentLibraryRow :=
  { id := 2
    org := 10
    slug := "chem"
    bundle_uuid := 101
    type := "complex"
    license := "all-rights-reserved"
    allow_public_learning := false
    allow_public_read := true }

/-- A sample two-row `ContentLibrary` table. -/
def sampleLibraries : List ContentLibraryRow := [sampleLibraryA, sampleLibraryB]

/-- A sample `ContentLibraryPermission` table: one user grant and one group
grant on the same library. -/
def samplePermissions : List ContentLibraryPermission :=
  [{ library := 0, user := some 1, group := none, access_level := "admin" },
   { library := 0, user := none, group := some 2, access_level := "read" }]

/-- C1: for every write (save) of a `ContentLibraryPermission`, if zero or
both of {user, group} are set the write is rejected with a validation error,
and if exactly one of {user, group} is set the write is accepted. -/
theorem C1_permission_save_exclusivity
    (superSave : List ContentLibraryPermission → ContentLibraryPermission →
      List ContentLibraryPermission)
    (db : List ContentLibraryPermission) (p : ContentLibraryPermission) :
    (((p.user = none ∧ p.group = none) ∨ (p.user ≠ none ∧ p.group ≠ none)) →
      (ContentLibraryPermission.save superSave db p).2 =
        Except.error permissionValidationError) ∧
    (((p.user = none ∧ p.group ≠ none) ∨ (p.user ≠ none ∧ p.group = none)) →
      (ContentLibraryPermission.save superSave db p).2 = Except.ok p) := by
  unfold ContentLibraryPermission.save
  rcases p with ⟨lib, u, g, al⟩
  cases u <;> cases g <;> simp

/-- C1 witness: a grant with neither key set is rejected, and a grant with
only a user set is accepted. -/
theorem C1_permission_save_exclusivity_witness :
    (ContentLibraryPermission.save (fun db p => db ++ [p]) []
      { library := 0, user := none, group := none, access_level := "admin" }).2 =
      Except.error permissionValidationError ∧
    (ContentLibraryPermission.save (fun db p => db ++ [p]) []
      { library := 0, user := some 1, group := none, access_level := "author" }).2 =
      Except.ok { library := 0, user := some 1, group := none, access_level := "author" } :=
  ⟨(C1_permission_save_exclusivity (fun db p => db ++ [p]) []
      { library := 0, user := none, group := none, access_level := "admin" }).1
      (Or.inl ⟨rfl, rfl⟩),
   (C1_permission_save_exclusivity (fun db p => db ++ [p]) []
      { library := 0, user := some 1, group := none, access_level := "author" }).2
      (Or.inr ⟨by decide, rfl⟩)⟩

/-- C10: when `ContentLibraryPermission.save` rejects a write because zero or
both of {user, group} are set, it raises before delegating to the underlying
save, so the stored table is unchanged on the error path. -/
theorem C10_permission_save_error_leaves_table_unchanged
    (superSave : List ContentLibraryPermission → ContentLibraryPermission →
      List ContentLibraryPermission)
    (db : List ContentLibraryPermission) (p : ContentLibraryPermission)
    (h : p.user.isNone = p.group.isNone) :
    ContentLibraryPermission.save superSave db p =
      (db, Except.error permissionValidationError) := by
  unfold ContentLibraryPermission.save
  rw [if_pos h]

/-- C10 witness: saving a grant with both keys set leaves an empty table
empty and raises the validation error. -/
theorem C10_permission_save_error_leaves_table_unchanged_witness :
    ContentLibraryPermission.save (fun db p => db ++ [p]) []
      { library := 0, user := some 3, group := some 4, access_level := "read" } =
      ([], Except.error permissionValidationError) :=
  C10_permission_save_error_leaves_table_unchanged (fun db p => db ++ [p]) []
    { library := 0, user := some 3, group := some 4, access_level := "read" } rfl

/-- C5: `save_progress` writes only the progress fraction and the
last-updated timestamp; the state field (and every other field) of the row is
unchanged by the progress update. -/
theorem C5_save_progress_frame (row : TaskRow) (p : ℚ) (now : Nat) :
    (save_progress row p now).state = row.state ∧
    (save_progress row p now).library = row.library ∧
    (save_progress row p now).course_id = row.course_id ∧
    (save_progress row p now).created_at = row.created_at ∧
    (save_progress row p now).progress = p ∧
    (save_progress row p now).updated_at = now :=
  ⟨rfl, rfl, rfl, rfl, rfl, rfl⟩

/-- C6: `execute` first loads the record, marks it running, and persists that
change before yielding control to the caller's work: its first three events
are the load, a database write of the running row, and the yield of that same
row. -/
theorem C6_execute_runs_before_yield {ε α : Type}
    (row : TaskRow) (body : TaskRow → TaskRow × PyResult ε α) (now1 now2 : Nat) :
    (execute row body now1 now2).take 3 =
      [ExecEvent.load row, ExecEvent.dbWrite (runningRow row now1),
       ExecEvent.yieldControl (runningRow row now1)] ∧
    (runningRow row now1).state = TaskState.running :=
  ⟨rfl, rfl⟩

/-- C2: after the yield, `execute` persists the final state and only then
returns: its last two events are a database write of the final row and the
return of exactly the body's outcome (the original exception re-raised
unchanged when the body raised); the persisted final state is `successful`
when the body completed normally and `failed` when it raised. -/
theorem C2_execute_outcome {ε α : Type}
    (row : TaskRow) (body : TaskRow → TaskRow × PyResult ε α) (now1 now2 : Nat) :
    (execute row body now1 now2).drop 3 =
      [ExecEvent.dbWrite (executeResult row body now1 now2),
       ExecEvent.finish (body (runningRow row now1)).2] ∧
    (∀ a : α, (body (runningRow row now1)).2 = PyResult.ok a →
      (executeResult row body now1 now2).state = TaskState.successful) ∧
    (∀ e : ε, (body (runningRow row now1)).2 = PyResult.exc e →
      (executeResult row body now1 now2).state = TaskState.failed) := by
  refine ⟨rfl, ?_, ?_⟩ <;> intro x h <;> simp [executeResult, h]

/-- C2 witness: a body that completes normally ends with a `successful`
write, a body that raises ends with a `failed` write. -/
theorem C2_execute_outcome_witness :
    (executeResult (newTask 0 "course" 0)
      (fun r => (r, (PyResult.ok 7 : PyResult String Nat))) 1 2).state =
      TaskState.successful ∧
    (executeResult (newTask 0 "course" 0)
      (fun r => (r, (PyResult.exc "boom" : PyResult String Nat))) 1 2).state =
      TaskState.failed :=
  ⟨(C2_execute_outcome (newTask 0 "course" 0)
      (fun r => (r, (PyResult.ok 7 : PyResult String Nat))) 1 2).2.1 7 rfl,
   (C2_execute_outcome (newTask 0 "course" 0)
      (fun r => (r, (PyResult.exc "boom" : PyResult String Nat))) 1 2).2.2 "boom" rfl⟩

/-- C4 counterexample: the claim that the stored progress value always lies
in [0.0, 1.0] fails on the code — `save_progress` performs no clamping or
validation, so running the single operation `save_progress(2.0)` on a fresh
task stores the progress value 2.0. -/
theorem C4_progress_range_counterexample :
    ¬ (0 ≤ (runOps (newTask 0 "course" 0)
          [(TaskOp.saveProgress 2 1 : TaskOp Unit Unit)]).1.progress ∧
       (runOps (newTask 0 "course" 0)
          [(TaskOp.saveProgress 2 1 : TaskOp Unit Unit)]).1.progress ≤ 1) := by
  decide

/-- C4 amended: the progress column defaults to 0.0 at creation, and
`save_progress` stores exactly its argument, with no clamping or validation;
consequently the stored value lies in [0.0, 1.0] precisely when the argument
does — the bound is the callers' responsibility, not enforced by the model. -/
theorem C4_progress_stored_verbatim (library : Nat) (course_id : String)
    (now0 : Nat) (row : TaskRow) (p : ℚ) (now : Nat) :
    (newTask library course_id now0).progress = 0 ∧
    (save_progress row p now).progress = p ∧
    ((0 ≤ (save_progress row p now).progress ∧ (save_progress row p now).progress ≤ 1) ↔
      (0 ≤ p ∧ p ≤ 1)) :=
  ⟨rfl, rfl, Iff.rfl⟩

/-- The `state`-column writes of one operation: `save_progress` writes none,
and `execute` writes `running` followed by one terminal state. -/
theorem applyOp_state_writes {ε α : Type} (row : TaskRow) (op : TaskOp ε α) :
    (applyOp row op).2 = [] ∨
    (applyOp row op).2 = [TaskState.running, TaskState.successful] ∨
    (applyOp row op).2 = [TaskState.running, TaskState.failed] := by
  cases op with
  | runTask body now1 now2 =>
    cases h : (body (runningRow row now1)).2 with
    | ok a =>
      right; left
      simp [applyOp, dbStates, execute, executeResult, h]
      rfl
    | exc e =>
      right; right
      simp [applyOp, dbStates, execute, executeResult, h]
      rfl
  | saveProgress p now => left; rfl

/-- Prepending a block of writes produced by one operation preserves the two
trace invariants. -/
theorem state_writes_append {b t : List TaskState}
    (hb : b = [] ∨ b = [TaskState.running, TaskState.successful] ∨
      b = [TaskState.running, TaskState.failed])
    (h1 : noLeadingTerminal t) (h2 : runningBeforeTerminal t) :
    noLeadingTerminal (b ++ t) ∧ runningBeforeTerminal (b ++ t) := by
  have key : ∀ u : TaskState, (u = TaskState.successful ∨ u = TaskState.failed) →
      noLeadingTerminal (TaskState.running :: u :: t) ∧
      runningBeforeTerminal (TaskState.running :: u :: t) := by
    intro u hu
    constructor
    · intro s hs
      simp at hs
      subst hs
      decide
    · intro i s hgot hterm
      match i with
      | 0 => simp
      | 1 =>
        exfalso
        have h0 : t[0]? = some s := by simpa using hgot
        rcases h1 s h0 with ⟨hs1, hs2⟩
        rcases hterm with rfl | rfl
        · exact hs1 rfl
        · exact hs2 rfl
      | Nat.succ (Nat.succ k) =>
        have hk : t[k + 1]? = some s := by simpa using hgot
        have := h2 k s hk hterm
        simpa using this
  rcases hb with rfl | rfl | rfl
  · exact ⟨h1, h2⟩
  · exact key TaskState.successful (Or.inl rfl)
  · exact key TaskState.failed (Or.inr rfl)

/-- Running any operation list produces a `state`-write sequence satisfying
both trace invariants. -/
theorem runOps_state_writes {ε α : Type} (row : TaskRow) (ops : List (TaskOp ε α)) :
    noLeadingTerminal (runOps row ops).2 ∧ runningBeforeTerminal (runOps row ops).2 := by
  induction ops generalizing row with
  | nil =>
    constructor
    · intro s h
      simp [runOps] at h
    · intro i s h _
      simp [runOps] at h
  | cons op ops ih =>
    have hb := applyOp_state_writes row op
    have ht := ih (applyOp row op).1
    have := state_writes_append hb ht.1 ht.2
    simpa [runOps] using this

/-- C3: for a task mutated only through the `execute` helper and progress
updates, the persisted state sequence starts at `created`, and every
occurrence of a terminal state (`successful` or `failed`) is immediately
preceded by `running` — the task never skips `running` and never reaches
`successful` without having been `running`. -/
theorem C3_state_lifecycle {ε α : Type} (library : Nat) (course_id : String)
    (now : Nat) (ops : List (TaskOp ε α)) :
    (stateTrace library course_id now ops)[0]? = some TaskState.created ∧
    ∀ i s, (stateTrace library course_id now ops)[i + 1]? = some s →
      (s = TaskState.successful ∨ s = TaskState.failed) →
      (stateTrace library course_id now ops)[i]? = some TaskState.running := by
  obtain ⟨h1, h2⟩ := runOps_state_writes (newTask library course_id now) ops
  refine ⟨by simp [stateTrace, newTask], ?_⟩
  intro i s h hterm
  match i with
  | 0 =>
    exfalso
    have h0 : (runOps (newTask library course_id now) ops).2[0]? = some s := by
      simpa [stateTrace] using h
    rcases h1 s h0 with ⟨hs1, hs2⟩
    rcases hterm with rfl | rfl
    · exact hs1 rfl
    · exact hs2 rfl
  | Nat.succ k =>
    have hk : (runOps (newTask library course_id now) ops).2[k + 1]? = some s := by
      simpa [stateTrace] using h
    have := h2 k s hk hterm
    simpa [stateTrace] using this

/-- C3 witness: on the trace of one successful `execute` —
`[created, running, successful]` — the state right before the terminal
`successful` is `running`. -/
theorem C3_state_lifecycle_witness :
    (stateTrace 0 "course" 0
      [(TaskOp.runTask (fun r => (r, PyResult.ok 0)) 1 2 : TaskOp Unit Nat)])[1]? =
      some TaskState.running :=
  (C3_state_lifecycle 0 "course" 0
      [(TaskOp.runTask (fun r => (r, PyResult.ok 0)) 1 2 : TaskOp Unit Nat)]).2 1
    TaskState.successful rfl (Or.inl rfl)

/-- C7 counterexample: the claim that `unsubscribe_token` is unique across
rows when non-null fails for `HistoricalCourseGoal` — its field declaration
in migration 0007 carries `db_index=True` but not `unique=True`, so a
historical table holding the same non-null token twice is admissible. -/
theorem C7_unsubscribe_token_counterexample :
    tokenColumnAdmissible historicalCourseGoalUnsubscribeToken [some 0, some 0] ∧
    ¬ (([some 0, some 0] : List (Option Nat)).filterMap id).Nodup ∧
    historicalCourseGoalUnsubscribeToken.unique = false := by
  refine ⟨?_, by decide, rfl⟩
  intro h
  exact absurd h (by decide)

/-- C7 amended: on both `CourseGoal` and `HistoricalCourseGoal` the
`unsubscribe_token` field is nullable, auto-populated with a random UUID
default, and not modifiable via the public (editable) interface; it is unique
across rows when non-null on `CourseGoal` only, while on
`HistoricalCourseGoal` it is merely indexed, not unique. -/
theorem C7_unsubscribe_token_options :
    courseGoalUnsubscribeToken.null = true ∧
    courseGoalUnsubscribeToken.default_random_uuid = true ∧
    courseGoalUnsubscribeToken.editable = false ∧
    courseGoalUnsubscribeToken.unique = true ∧
    historicalCourseGoalUnsubscribeToken.null = true ∧
    historicalCourseGoalUnsubscribeToken.default_random_uuid = true ∧
    historicalCourseGoalUnsubscribeToken.editable = false ∧
    historicalCourseGoalUnsubscribeToken.unique = false ∧
    historicalCourseGoalUnsubscribeToken.db_index = true ∧
    ∀ rows : List (Option Nat),
      tokenColumnAdmissible courseGoalUnsubscribeToken rows →
        (rows.filterMap id).Nodup := by
  refine ⟨rfl, rfl, rfl, rfl, rfl, rfl, rfl, rfl, rfl, ?_⟩
  intro rows h
  exact h rfl

/-- C7 witness: an admissible `CourseGoal` token column with two distinct
non-null tokens indeed has no duplicate. -/
theorem C7_unsubscribe_token_options_witness :
    (([some 1, some 2] : List (Option Nat)).filterMap id).Nodup :=
  C7_unsubscribe_token_options.2.2.2.2.2.2.2.2.2 [some 1, some 2]
    (fun _ => by decide)

/-- C8: in every admissible `ContentLibrary` table, two rows at distinct
positions have different (org, slug) pairs and different bundle UUIDs. -/
theorem C8_content_library_uniqueness (rows : List ContentLibraryRow)
    (hok : contentLibraryTableOK rows) (i j : Nat)
    (hi : i < rows.length) (hj : j < rows.length) (hij : i ≠ j) :
    ((rows.get ⟨i, hi⟩).org, (rows.get ⟨i, hi⟩).slug) ≠
      ((rows.get ⟨j, hj⟩).org, (rows.get ⟨j, hj⟩).slug) ∧
    (rows.get ⟨i, hi⟩).bundle_uuid ≠ (rows.get ⟨j, hj⟩).bundle_uuid := by
  constructor
  · intro hEq
    have hi' : i < (rows.map fun r => (r.org, r.slug)).length := by simpa using hi
    have hj' : j < (rows.map fun r => (r.org, r.slug)).length := by simpa using hj
    have hmap : (rows.map fun r => (r.org, r.slug)).get ⟨i, hi'⟩ =
        (rows.map fun r => (r.org, r.slug)).get ⟨j, hj'⟩ := by
      simpa [List.get_eq_getElem, List.getElem_map] using hEq
    have := hok.1.get_inj_iff.mp hmap
    exact hij (congrArg Fin.val this)
  · intro hEq
    have hi' : i < (rows.map fun r => r.bundle_uuid).length := by simpa using hi
    have hj' : j < (rows.map fun r => r.bundle_uuid).length := by simpa using hj
    have hmap : (rows.map fun r => r.bundle_uuid).get ⟨i, hi'⟩ =
        (rows.map fun r => r.bundle_uuid).get ⟨j, hj'⟩ := by
      simpa [List.get_eq_getElem, List.getElem_map] using hEq
    have := hok.2.get_inj_iff.mp hmap
    exact hij (congrArg Fin.val this)

/-- C8 witness: in the sample two-row table, the rows disagree on the
(org, slug) pair and on the bundle UUID. -/
theorem C8_content_library_uniqueness_witness :
    ((sampleLibraries.get ⟨0, by decide⟩).org, (sampleLibraries.get ⟨0, by decide⟩).slug) ≠
      ((sampleLibraries.get ⟨1, by decide⟩).org, (sampleLibraries.get ⟨1, by decide⟩).slug) ∧
    (sampleLibraries.get ⟨0, by decide⟩).bundle_uuid ≠
      (sampleLibraries.get ⟨1, by decide⟩).bundle_uuid :=
  C8_content_library_uniqueness sampleLibraries ⟨by decide, by decide⟩ 0 1
    (by decide) (by decide) (by decide)

/-- Helper: when the projections of a list through `f` to non-null keys form
a list without duplicates, a predicate that characterizes one key value holds
of at most one element. -/
theorem countP_le_one_of_filterMap_nodup {α β : Type} [DecidableEq β]
    (f : α → Option β) (b : β) (p : α → Bool)
    (hp : ∀ a, p a = true ↔ f a = some b) (l : List α)
    (h : (l.filterMap f).Nodup) : l.countP p ≤ 1 := by
  induction l with
  | nil => simp
  | cons a l ih =>
    by_cases hpa : p a = true
    · have hfa : f a = some b := (hp a).mp hpa
      have hcons : (b ∉ l.filterMap f) ∧ (l.filterMap f).Nodup := by
        have : ((b :: l.filterMap f) : List β).Nodup := by
          simpa [List.filterMap_cons, hfa] using h
        exact List.nodup_cons.mp this
      have hz : l.countP p = 0 := by
        by_contra hnz
        have hpos : 0 < l.countP p := Nat.pos_of_ne_zero hnz
        rw [List.countP_pos_iff] at hpos
        obtain ⟨x, hx, hpx⟩ := hpos
        exact hcons.1 (List.mem_filterMap.mpr ⟨x, hx, (hp x).mp hpx⟩)
      simp [List.countP_cons, hpa, hz]
    · have h' : (l.filterMap f).Nodup := by
        cases hfa : f a with
        | none => simpa [List.filterMap_cons, hfa] using h
        | some y =>
          have : ((y :: l.filterMap f) : List β).Nodup := by
            simpa [List.filterMap_cons, hfa] using h
          exact (List.nodup_cons.mp this).2
      have hfalse : p a = false := by
        cases hv : p a with
        | false => rfl
        | true => exact absurd hv hpa
      simp [List.countP_cons, hfalse]
      exact ih h'

/-- C9: in every admissible `ContentLibraryPermission` table — one satisfying
the declared `unique_together` constraints on (library, user) and
(library, group) — a given user has at most one grant for a given library,
and a given group has at most one grant for a given library. -/
theorem C9_permission_grant_at_most_one (rows : List ContentLibraryPermission)
    (hok : permTableOK rows) (lib u g : Nat) :
    rows.countP (fun r => decide (r.library = lib ∧ r.user = some u)) ≤ 1 ∧
    rows.countP (fun r => decide (r.library = lib ∧ r.group = some g)) ≤ 1 := by
  constructor
  · refine countP_le_one_of_filterMap_nodup
      (fun r => r.user.map fun x => (r.library, x)) (lib, u) _ ?_ rows hok.1
    intro r
    cases hr : r.user <;> simp [hr]
  · refine countP_le_one_of_filterMap_nodup
      (fun r => r.group.map fun x => (r.library, x)) (lib, g) _ ?_ rows hok.2
    intro r
    cases hr : r.group <;> simp [hr]

/-- C9 witness: in the sample table with one user grant and one group grant
on the same library, each grant is unique. -/
theorem C9_permission_grant_at_most_one_witness :
    samplePermissions.countP (fun r => decide (r.library = 0 ∧ r.user = some 1)) ≤ 1 ∧
    samplePermissions.countP (fun r => decide (r.library = 0 ∧ r.group = some 2)) ≤ 1 :=
  C9_permission_grant_at_most_one samplePermissions ⟨by decide, by decide⟩ 0 1 2

end Edx
